import Mathlib

/-
  Shallow embedding of the response-parsing and change-detection layer of the
  ts-caldav repository.

  Embedded sources:
  - src/src/utils/parser.ts : `parseCalendars` and `parseEvents` built on the
    ical.js back-end (the live parser).
  - src/unnamed/part_000    : an alternative `parseEvents` / `parseCalendars`
    built on the node-ical back-end.
  - src/unnamed/part_001    : the data model (models.ts): `Alarm`, `Calendar`,
    `Event`, `EventRef`, `SyncChangesResult`.

  Embedding boundary: the external libraries (fast-xml-parser, ical.js,
  node-ical, the WHATWG URL resolver) are not part of the repository. Their
  observable outputs are the inputs of the embedded functions: the decoded
  multistatus tree is an `XmlOutcome`, the result of handing a calendar-data
  payload to the iCalendar library is an `ICalOutcome` (respectively
  `NodeICalOutcome`), and URL resolution is an explicit `resolve` function
  argument. Everything from those boundaries on is translated statement by
  statement from the TypeScript source. JavaScript `undefined` becomes
  `Option.none`; JavaScript truthiness on strings (empty string is falsy) is
  `jsTruthy`; the `x || undefined` idiom is `orUndefined`.
-/

namespace CalDav

/-- Truthiness of a possibly-undefined JavaScript string: `undefined` and the
empty string are falsy, every other string is truthy. -/
def jsTruthy : Option String → Bool
  | some s => !s.isEmpty
  | none => false

/-- The JavaScript idiom `x || undefined` on a possibly-undefined string:
a falsy value (missing or empty) collapses to `undefined`. -/
def orUndefined : Option String → Option String
  | some s => if s.isEmpty then none else some s
  | none => none

/-- Prefix test over character lists: the first list is an initial segment
of the second. -/
def matchesAt : List Char → List Char → Bool
  | [], _ => true
  | _ :: _, [] => false
  | a :: as, b :: bs => a == b && matchesAt as bs

/-- Occurrence test over character lists: the needle occurs contiguously
somewhere in the haystack (the empty needle always occurs), mirroring
JavaScript `String.prototype.includes`. -/
def hasInfix : List Char → List Char → Bool
  | hay, needle =>
    match hay with
    | [] => needle.isEmpty
    | _ :: rest => matchesAt needle hay || hasInfix rest needle

/-- Lower-cased character sequence of a string, mirroring JavaScript
`String.prototype.toLowerCase` on the ASCII range. -/
def lowerChars (s : String) : List Char :=
  s.data.map Char.toLower

/-- Model of `normalizeParam` (parser.ts lines 11-18): an iCalendar parameter
value may be a string or an array of strings; an array contributes its first
element (`undefined` when the array is empty), a string is passed through. -/
def normalizeParam : Option (Sum String (List String)) → Option String
  | some (Sum.inl s) => some s
  | some (Sum.inr l) => l.head?
  | none => none

/-- Cardinality normalization `Array.isArray(x) ? x : [x]` used throughout
both parser variants: a bare singleton becomes a one-element sequence. -/
def sumToList {α : Type} : Sum α (List α) → List α
  | Sum.inl a => [a]
  | Sum.inr l => l

/-- Model of an `ICAL.Recur` value as observed through the accessors that
`parseRecurrence` (parser.ts lines 20-48) uses. `count` is `none` when the
library reports `null`; `parts` lists are `none` when the key is absent
(a present list, even empty, is a truthy JavaScript array). `until` is the
epoch-millisecond timestamp of `recur.until.toJSDate()` when present. -/
structure Recur where
  freq : String
  interval : Nat
  count : Option Int
  «until» : Option Int
  byday : Option (List String)
  bymonthday : Option (List Int)
  bymonth : Option (List Int)
  deriving Repr, DecidableEq

/-- The `RecurrenceRule` record built by `parseRecurrence`. -/
structure RecurrenceRule where
  freq : Option String
  interval : Nat
  count : Option Int
  «until» : Option Int
  byday : Option (List String)
  bymonthday : Option (List Int)
  bymonth : Option (List Int)
  deriving Repr, DecidableEq

/-- Model of `parseRecurrence` (parser.ts lines 20-48): the frequency is kept
only when it is one of the four recognized values (`freqMap[recur.freq] ||
undefined`); `recur.count ? recur.count : undefined` drops a zero count
(zero is falsy); the `parts` lists are copied when present. -/
def parseRecurrence (recur : Recur) : RecurrenceRule :=
  { freq :=
      if ["DAILY", "WEEKLY", "MONTHLY", "YEARLY"].contains recur.freq then
        some recur.freq
      else none
    interval := recur.interval
    count :=
      match recur.count with
      | some c => if c = 0 then none else some c
      | none => none
    «until» := recur.«until»
    byday := recur.byday
    bymonthday := recur.bymonthday
    bymonth := recur.bymonth }

/-- The tagged `Alarm` variants of models.ts (part_001 lines 22-38):
a closed sum over DISPLAY, EMAIL and AUDIO, each carrying a mandatory
trigger string. -/
inductive Alarm where
  | display (trigger : String) (description : Option String)
  | email (trigger : String) (description : Option String)
      (summary : Option String) (attendees : List String)
  | audio (trigger : String)
  deriving Repr, DecidableEq

/-- The action tag carried by an alarm variant. -/
def Alarm.actionTag : Alarm → String
  | .display _ _ => "DISPLAY"
  | .email _ _ _ _ => "EMAIL"
  | .audio _ => "AUDIO"

/-- The attendees list of an alarm: EMAIL alarms carry their collected
attendees, the other variants carry none. -/
def Alarm.attendeesOf : Alarm → List String
  | .email _ _ _ atts => atts
  | _ => []

/-- Model of a VALARM sub-component as observed through the ical.js accessors
used by parser.ts lines 173-208: `getFirstPropertyValue` results after
`?.toString()` are possibly-undefined strings, and `attendeeValues` lists the
`getFirstValue()` results of all attendee properties in order (`none` marks a
value whose `typeof` is not string, which the source filters out). -/
structure VAlarm where
  action : Option String
  trigger : Option String
  description : Option String
  summary : Option String
  attendeeValues : List (Option String)
  deriving Repr, DecidableEq

/-- Model of the VALARM processing loop body of parser.ts lines 173-208:
an if/else-if chain over the action value, each branch requiring a truthy
trigger; the EMAIL branch collects all string-typed attendee values; any
other action, or a missing trigger, constructs nothing. -/
def parseAlarm (a : VAlarm) : Option Alarm :=
  if a.action = some "DISPLAY" && jsTruthy a.trigger then
    some (.display (a.trigger.getD "") (orUndefined a.description))
  else if a.action = some "EMAIL" && jsTruthy a.trigger then
    some (.email (a.trigger.getD "") (orUndefined a.description)
      (orUndefined a.summary) (a.attendeeValues.filterMap id))
  else if a.action = some "AUDIO" && jsTruthy a.trigger then
    some (.audio (a.trigger.getD ""))
  else none

/-- Model of the first VEVENT sub-component of a parsed iCalendar document, as
observed through the ical.js accessors used by parser.ts lines 141-171:
`startUnix`/`endUnix` are the `toUnixTime()` values of `icalEvent.startDate`
and `icalEvent.endDate` (the latter `none` when `icalEvent.endDate` is null),
`startIsDate` is `icalEvent.startDate.isDate`, the tzid fields hold the raw
`getParameter("tzid")` results of the DTSTART/DTEND properties (string,
string array, or absent — absent also covers a missing property), and `rrule`
is `some v` when an RRULE property exists with `getFirstValue()` result `v`
(`some none` when that value is null). -/
structure VEvent where
  uid : String
  summary : Option String
  description : Option String
  location : Option String
  startIsDate : Bool
  startUnix : Int
  endUnix : Option Int
  dtstartTzid : Option (Sum String (List String))
  dtendTzid : Option (Sum String (List String))
  rrule : Option (Option Recur)
  valarms : List VAlarm
  deriving Repr, DecidableEq

/-- Outcome of handing a calendar-data payload to the ical.js back-end
(parser.ts lines 136-139): `ICAL.parse` throws, or it succeeds and
`getFirstSubcomponent("vevent")` finds no VEVENT, or it yields a first
VEVENT. -/
inductive ICalOutcome where
  | malformed : ICalOutcome
  | noVEvent : ICalOutcome
  | vevent : VEvent → ICalOutcome
  deriving Repr, DecidableEq

/-- The `propstat.prop` mapping of an event response record (parser.ts lines
127-131): an optional `calendar-data` payload (already abstracted to its
iCalendar-library outcome; a missing or falsy payload is `none`) and an
optional `getetag` value. The payload type is a parameter so that the same
shell serves both iCalendar back-ends. -/
structure EventProp (ι : Type) where
  calendarData : Option ι
  getetag : Option String
  deriving Repr, DecidableEq

/-- An event response record: the `href` and the result of
`obj["propstat"]?.["prop"]` (the optional chain collapses a missing propstat
and a missing prop into `none`). -/
structure EventResponse (ι : Type) where
  href : String
  prop : Option (EventProp ι)
  deriving Repr, DecidableEq

/-- The `Event` record of models.ts as built by parser.ts: `start` and
`endTime` are epoch-millisecond instants (the source's `Date` values). The
source field named `end` is rendered `endTime` because `end` is reserved. -/
structure Event where
  uid : String
  summary : String
  start : Int
  endTime : Int
  description : Option String
  location : Option String
  etag : String
  href : String
  wholeDay : Bool
  recurrenceRule : Option RecurrenceRule
  startTzid : Option String
  endTzid : Option String
  alarms : List Alarm
  deriving Repr, DecidableEq

/-- The href resolution idiom `baseUrl ? new URL(href, baseUrl).toString() :
href` shared by both parsers: `resolve` abstracts the external WHATWG URL
constructor; an absent or empty (falsy) base URL passes the href through. -/
def resolveHref (resolve : String → String → String)
    (baseUrl : Option String) (href : String) : String :=
  match baseUrl with
  | some b => if b.isEmpty then href else resolve b href
  | none => href

/-- Model of one iteration of the response loop of parser.ts lines 126-228:
records without `propstat.prop` or without truthy `calendar-data` are skipped;
a payload on which the iCalendar library throws is caught (the catch block
only logs) and skipped; a payload without a VEVENT is skipped; otherwise an
`Event` is built exactly as in lines 141-224, including the whole-day
adjustment `endDate - 86400000` of lines 151-153. -/
def processEventRecord (resolve : String → String → String)
    (baseUrl : Option String) (obj : EventResponse ICalOutcome) :
    Option Event :=
  match obj.prop with
  | none => none
  | some eventData =>
    match eventData.calendarData with
    | none => none
    | some ICalOutcome.malformed => none
    | some ICalOutcome.noVEvent => none
    | some (ICalOutcome.vevent v) =>
      let isWholeDay := v.startIsDate
      let startDate := v.startUnix * 1000
      let endDate :=
        match v.endUnix with
        | some e => e * 1000
        | none => startDate
      let adjustedEnd := if isWholeDay then endDate - 86400000 else endDate
      let startTzid := orUndefined (normalizeParam v.dtstartTzid)
      let endTzid := orUndefined (normalizeParam v.dtendTzid)
      let recurrenceRule :=
        match v.rrule with
        | some (some recur) => some (parseRecurrence recur)
        | some none => none
        | none => none
      let alarms := v.valarms.filterMap parseAlarm
      some
        { uid := v.uid
          summary := (orUndefined v.summary).getD "Untitled Event"
          start := startDate
          endTime := adjustedEnd
          description := orUndefined v.description
          location := orUndefined v.location
          etag := (orUndefined eventData.getetag).getD ""
          href := resolveHref resolve baseUrl obj.href
          wholeDay := isWholeDay
          recurrenceRule := recurrenceRule
          startTzid := startTzid
          endTzid := endTzid
          alarms := alarms }

/-- Outcome of the multistatus XML decoding step shared by both parsers:
`xmlError` when `parser.parse` throws, `noMultistatus` when the decoded
object has no `multistatus` key (reading `["response"]` of `undefined` then
throws a TypeError), and otherwise the optional `response` value, which may
be a bare singleton record or a list (`none` also covers a falsy `response`
value). -/
inductive XmlOutcome (α : Type) where
  | xmlError : XmlOutcome α
  | noMultistatus : XmlOutcome α
  | ok : Option (Sum α (List α)) → XmlOutcome α
  deriving Repr

/-- Model of `parseEvents` (parser.ts lines 114-231): XML decoding failures
and a missing `multistatus` root are fatal; a multistatus whose `response`
is absent or falsy returns the empty event list successfully (line 123);
otherwise the records are normalized to a list and processed one by one,
skipped records contributing nothing. -/
def parseEvents (resolve : String → String → String) (baseUrl : Option String)
    (doc : XmlOutcome (EventResponse ICalOutcome)) :
    Except String (List Event) :=
  match doc with
  | XmlOutcome.xmlError => Except.error "XML parse error"
  | XmlOutcome.noMultistatus =>
      Except.error "TypeError: cannot read property response of undefined"
  | XmlOutcome.ok none => Except.ok []
  | XmlOutcome.ok (some r) =>
      Except.ok ((sumToList r).filterMap (processEventRecord resolve baseUrl))

/-- One `comp` child of a `supported-calendar-component-set`: its `name`
attribute, `none` when the attribute is missing. -/
structure CompEntry where
  name : Option String
  deriving Repr, DecidableEq

/-- The `supported-calendar-component-set` element: its `comp` children,
either a bare singleton, a list, or absent (the source's `compData`
normalization maps a falsy value to the empty array). -/
structure CompSet where
  comp : Option (Sum CompEntry (List CompEntry))
  deriving Repr, DecidableEq

/-- The `prop` mapping of a calendar propstat (parser.ts lines 77-106):
`displayname`, `getctag` and the optional component set. -/
structure CalProp where
  displayname : Option String
  getctag : Option String
  sccs : Option CompSet
  deriving Repr, DecidableEq

/-- A `propstat` record of a calendar response: its `status` (as a string
when `typeof p["status"] === "string"`, `none` when absent or of another
type) and its optional `prop`. -/
structure CalPropstat where
  status : Option String
  prop : Option CalProp
  deriving Repr, DecidableEq

/-- A calendar response record: the `href` and the `propstat` value, which
may be a bare singleton, a list, or absent; when absent the source wraps
`undefined` into a one-element array and the `find` callback then throws
reading `p["status"]`. -/
structure CalResponse where
  href : String
  propstat : Option (Sum CalPropstat (List CalPropstat))
  deriving Repr, DecidableEq

/-- The `Calendar` record of models.ts as built by `parseCalendars`. -/
structure Calendar where
  displayName : String
  url : String
  ctag : Option String
  supportedComponents : List String
  deriving Repr, DecidableEq

/-- The component names recognized by the filter of parser.ts lines 90-97. -/
def knownComponents : List String :=
  ["VEVENT", "VTODO", "VJOURNAL", "VFREEBUSY", "VTIMEZONE", "VAVAILABILITY"]

/-- The `find` predicate of parser.ts lines 70-74: a propstat whose status
is a string that case-insensitively includes the text 200 ok. -/
def statusOk (p : CalPropstat) : Bool :=
  match p.status with
  | some s => hasInfix (lowerChars s) "200 ok".data
  | none => false

/-- The component names extracted from a calendar propstat (parser.ts lines
78-98): `prop?.["supported-calendar-component-set"]?.["comp"]` normalized to
an array, mapped to the `name` attributes, and filtered to the recognized
component names (a missing name is never recognized). -/
def supportedComponentsOf (okPropstat : CalPropstat) : List String :=
  let compData := (okPropstat.prop.bind CalProp.sccs).bind CompSet.comp
  let compArray :=
    match compData with
    | some c => sumToList c
    | none => []
  compArray.filterMap fun c =>
    c.name.bind fun n => if knownComponents.contains n then some n else none

/-- Model of one iteration of the response loop of `parseCalendars`
(parser.ts lines 65-109): a missing `propstat` makes the `find` callback
throw a TypeError (uncaught, so fatal); a record with no 200-OK propstat is
skipped; a record whose recognized component names lack VEVENT is skipped;
otherwise the `Calendar` is built from `prop` — reading `prop["displayname"]`
would throw were `prop` undefined, which the VEVENT check makes unreachable. -/
def processCalRecord (resolve : String → String → String)
    (baseUrl : Option String) (res : CalResponse) :
    Except String (Option Calendar) :=
  match res.propstat with
  | none => Except.error "TypeError: cannot read property status of undefined"
  | some ps =>
    match (sumToList ps).find? statusOk with
    | none => Except.ok none
    | some okPropstat =>
      let supportedComponents := supportedComponentsOf okPropstat
      if supportedComponents.contains "VEVENT" then
        match okPropstat.prop with
        | none =>
            Except.error
              "TypeError: cannot read property displayname of undefined"
        | some prop =>
            Except.ok (some
              { displayName := prop.displayname.getD ""
                url := resolveHref resolve baseUrl res.href
                ctag := prop.getctag
                supportedComponents := supportedComponents })
      else Except.ok none

/-- The response loop of `parseCalendars`: each record may throw (fatal for
the whole call) or contribute at most one calendar, in input order. -/
def runCalRecords (resolve : String → String → String)
    (baseUrl : Option String) : List CalResponse →
    Except String (List Calendar)
  | [] => Except.ok []
  | r :: rest =>
    match processCalRecord resolve baseUrl r with
    | Except.error e => Except.error e
    | Except.ok c? =>
      match runCalRecords resolve baseUrl rest with
      | Except.error e => Except.error e
      | Except.ok others =>
        match c? with
        | some c => Except.ok (c :: others)
        | none => Except.ok others

/-- Model of `parseCalendars` (parser.ts lines 50-112): XML decoding
failures and a missing `multistatus` root are fatal; unlike `parseEvents`
there is no guard on a missing `response`, so the wrapped `[undefined]`
record throws inside the loop and the whole call fails. -/
def parseCalendars (resolve : String → String → String)
    (baseUrl : Option String) (doc : XmlOutcome CalResponse) :
    Except String (List Calendar) :=
  match doc with
  | XmlOutcome.xmlError => Except.error "XML parse error"
  | XmlOutcome.noMultistatus =>
      Except.error "TypeError: cannot read property response of undefined"
  | XmlOutcome.ok none =>
      Except.error "TypeError: cannot read property propstat of undefined"
  | XmlOutcome.ok (some r) => runCalRecords resolve baseUrl (sumToList r)

/-- Model of a VALARM as observed through the node-ical accessors used by
part_000 lines 107-131: plain `action`, `trigger`, `description`, `summary`
fields, and an `attendee` field that node-ical populates with a single value
or an array of values when several ATTENDEE properties are present. -/
structure NodeAlarm where
  action : Option String
  trigger : Option String
  description : Option String
  summary : Option String
  attendee : Option (Sum String (List String))
  deriving Repr, DecidableEq

/-- Model of the attendee collection of part_000 line 124,
`valarm.attendee ? [valarm.attendee.toString()] : []`: a falsy attendee
value yields the empty list; otherwise a one-element list holding the
value's `toString()` (a JavaScript array stringifies to its comma-joined
elements). -/
def nodeAttendees : Option (Sum String (List String)) → List String
  | none => []
  | some (Sum.inl s) => if s.isEmpty then [] else [s]
  | some (Sum.inr l) => [String.intercalate "," l]

/-- Model of the VALARM loop body of part_000 lines 107-132: the same
if/else-if chain over the action with a required truthy trigger, but
`description` and `summary` passed through directly and the attendees taken
from the single `attendee` field. -/
def parseNodeAlarm (a : NodeAlarm) : Option Alarm :=
  if a.action = some "DISPLAY" && jsTruthy a.trigger then
    some (.display (a.trigger.getD "") a.description)
  else if a.action = some "EMAIL" && jsTruthy a.trigger then
    some (.email (a.trigger.getD "") a.description a.summary
      (nodeAttendees a.attendee))
  else if a.action = some "AUDIO" && jsTruthy a.trigger then
    some (.audio (a.trigger.getD ""))
  else none

/-- Model of a component of a node-ical parse result (one value of
`Object.values(jcalData)`), restricted to the fields part_000 reads: the
`type` tag used by the VEVENT search, the event fields, `start`/`endTime`
as epoch-millisecond instants with their `tz` annotations, the `datetype`
marker, an opaque recurrence-rule reference (kept as its raw text), and the
optional alarms array. -/
structure NodeComponent where
  type : String
  uid : String
  summary : Option String
  start : Int
  startTz : Option String
  endTime : Int
  endTz : Option String
  description : Option String
  location : Option String
  datetype : Option String
  rrule : Option String
  alarms : Option (List NodeAlarm)
  deriving Repr, DecidableEq

/-- Outcome of handing a calendar-data payload to the node-ical back-end
(part_000 line 96): `ICAL.sync.parseICS` throws, or it yields a record whose
values are the parsed components. -/
inductive NodeICalOutcome where
  | malformed : NodeICalOutcome
  | parsed : List NodeComponent → NodeICalOutcome
  deriving Repr, DecidableEq

/-- The `Event` record as built by the node-ical variant (part_000 lines
135-149): same shape as `Event` except that the recurrence rule is the
opaque node-ical object, kept as its raw reference. -/
structure NodeOutEvent where
  uid : String
  summary : String
  start : Int
  endTime : Int
  description : Option String
  location : Option String
  etag : String
  href : String
  wholeDay : Bool
  recurrenceRule : Option String
  startTzid : Option String
  endTzid : Option String
  alarms : List Alarm
  deriving Repr, DecidableEq

/-- Model of one iteration of the response loop of the node-ical variant
(part_000 lines 86-153): records without `propstat.prop` or truthy
`calendar-data` are skipped; a throwing parse is caught and skipped; the
first component with `type === "VEVENT"` supplies the fields; note that
`end: event.end` on line 139 is pushed without any whole-day adjustment. -/
def processNodeEventRecord (resolve : String → String → String)
    (baseUrl : Option String) (obj : EventResponse NodeICalOutcome) :
    Option NodeOutEvent :=
  match obj.prop with
  | none => none
  | some eventData =>
    match eventData.calendarData with
    | none => none
    | some NodeICalOutcome.malformed => none
    | some (NodeICalOutcome.parsed comps) =>
      match comps.find? (fun v => v.type == "VEVENT") with
      | none => none
      | some event =>
        let alarms :=
          match event.alarms with
          | some valarms => valarms.filterMap parseNodeAlarm
          | none => []
        some
          { uid := event.uid
            summary := (orUndefined event.summary).getD "Untitled Event"
            start := event.start
            endTime := event.endTime
            description := event.description
            location := event.location
            etag := (orUndefined eventData.getetag).getD ""
            href := resolveHref resolve baseUrl obj.href
            wholeDay := event.datetype = some "date"
            recurrenceRule := event.rrule
            startTzid := event.startTz
            endTzid := event.endTz
            alarms := alarms }

/-- Model of `parseEvents` in the node-ical variant (part_000 lines 74-156):
identical multistatus handling to the ical.js variant, with the node-ical
record processing in the loop. -/
def parseEventsNodeIcal (resolve : String → String → String)
    (baseUrl : Option String)
    (doc : XmlOutcome (EventResponse NodeICalOutcome)) :
    Except String (List NodeOutEvent) :=
  match doc with
  | XmlOutcome.xmlError => Except.error "XML parse error"
  | XmlOutcome.noMultistatus =>
      Except.error "TypeError: cannot read property response of undefined"
  | XmlOutcome.ok none => Except.ok []
  | XmlOutcome.ok (some r) =>
      Except.ok
        ((sumToList r).filterMap (processNodeEventRecord resolve baseUrl))

/-- The `EventRef` record of models.ts (part_001 lines 40-43). -/
structure EventRef where
  href : String
  etag : String
  deriving Repr, DecidableEq

/-- The `SyncChangesResult` record of models.ts (part_001 lines 45-51). -/
structure SyncChangesResult where
  changed : Bool
  newCtag : String
  newEvents : List String
  updatedEvents : List String
  deletedEvents : List String
  deriving Repr, DecidableEq

/-- Modelled from the spec: the ChangeDetector itself is not among the
repository sources provided (src contains only its result type
`SyncChangesResult` in models.ts). Following spec section 4.4: when the two
ctags are equal, return `changed: false` with three empty lists and no
per-event comparison; otherwise index both ref lists by href, classify each
current href absent from the previous refs as new, each href present in both
with differing etags as updated, and each previous href absent from the
current refs as deleted, keeping first-encounter order of `currRefs` for
new/updated and of `prevRefs` for deleted. -/
def detectChanges (prevCtag currCtag : String)
    (prevRefs currRefs : List EventRef) : SyncChangesResult :=
  if prevCtag = currCtag then
    { changed := false
      newCtag := currCtag
      newEvents := []
      updatedEvents := []
      deletedEvents := [] }
  else
    let inPrev := fun h => prevRefs.find? (fun r => r.href == h)
    let inCurr := fun h => currRefs.find? (fun r => r.href == h)
    { changed := true
      newCtag := currCtag
      newEvents :=
        currRefs.filterMap fun c =>
          if (inPrev c.href).isNone then some c.href else none
      updatedEvents :=
        currRefs.filterMap fun c =>
          match inPrev c.href with
          | some p => if p.etag ≠ c.etag then some c.href else none
          | none => none
      deletedEvents :=
        prevRefs.filterMap fun p =>
          if (inCurr p.href).isNone then some p.href else none }

/-- The error side of a parse entry point result. -/
def isError {α : Type} : Except String α → Bool
  | Except.error _ => true
  | Except.ok _ => false

/-- An event response record whose calendar-data payload makes the
iCalendar library throw. -/
def isMalformedRecord (r : EventResponse ICalOutcome) : Bool :=
  match r.prop with
  | some p => p.calendarData = some ICalOutcome.malformed
  | none => false

/-- The propstat records of a calendar response, after the source's
singleton-vs-array normalization (empty when `propstat` is absent). -/
def propstatsOf (r : CalResponse) : List CalPropstat :=
  match r.propstat with
  | some ps => sumToList ps
  | none => []

/-- A concrete URL resolver standing in for the WHATWG URL constructor in
the closed evaluations below. -/
def idResolve : String → String → String := fun _ href => href

/-- A whole-day VEVENT with DTSTART 2024-01-10 and an explicit exclusive
DTEND 2024-01-12, as delivered by the ical.js back-end. -/
def wholeDayVEvent : VEvent :=
  { uid := "ev-1"
    summary := some "Trip"
    description := none
    location := none
    startIsDate := true
    startUnix := 1704844800
    endUnix := some 1705017600
    dtstartTzid := none
    dtendTzid := none
    rrule := none
    valarms := [] }

/-- The response record wrapping `wholeDayVEvent`. -/
def wholeDayRecord : EventResponse ICalOutcome :=
  { href := "/cal/ev1.ics"
    prop := some
      { calendarData := some (ICalOutcome.vevent wholeDayVEvent)
        getetag := some "tag-1" } }

/-- The event the ical.js variant builds from `wholeDayRecord`: the end
instant is the raw exclusive end minus one day. -/
def wholeDayEventIcalJs : Event :=
  { uid := "ev-1"
    summary := "Trip"
    start := 1704844800000
    endTime := 1704931200000
    description := none
    location := none
    etag := "tag-1"
    href := "/cal/ev1.ics"
    wholeDay := true
    recurrenceRule := none
    startTzid := none
    endTzid := none
    alarms := [] }

/-- The same whole-day event as delivered by the node-ical back-end:
`start`/`end` are already the epoch-millisecond instants and `datetype`
marks the date-only value type. -/
def wholeDayNodeComponent : NodeComponent :=
  { type := "VEVENT"
    uid := "ev-1"
    summary := some "Trip"
    start := 1704844800000
    startTz := none
    endTime := 1705017600000
    endTz := none
    description := none
    location := none
    datetype := some "date"
    rrule := none
    alarms := none }

/-- The response record wrapping `wholeDayNodeComponent`. -/
def wholeDayNodeRecord : EventResponse NodeICalOutcome :=
  { href := "/cal/ev1.ics"
    prop := some
      { calendarData := some (NodeICalOutcome.parsed [wholeDayNodeComponent])
        getetag := some "tag-1" } }

/-- The event the node-ical variant builds from `wholeDayNodeRecord`: the
end instant is pushed through unchanged. -/
def wholeDayEventNodeIcal : NodeOutEvent :=
  { uid := "ev-1"
    summary := "Trip"
    start := 1704844800000
    endTime := 1705017600000
    description := none
    location := none
    etag := "tag-1"
    href := "/cal/ev1.ics"
    wholeDay := true
    recurrenceRule := none
    startTzid := none
    endTzid := none
    alarms := [] }

/-- A response record whose calendar-data payload is malformed. -/
def malformedRecord : EventResponse ICalOutcome :=
  { href := "/cal/bad.ics"
    prop := some { calendarData := some ICalOutcome.malformed, getetag := none } }

/-- Ten response records of which exactly one (the fifth) is malformed. -/
def tenRecords : List (EventResponse ICalOutcome) :=
  [wholeDayRecord, wholeDayRecord, wholeDayRecord, wholeDayRecord,
   malformedRecord,
   wholeDayRecord, wholeDayRecord, wholeDayRecord, wholeDayRecord,
   wholeDayRecord]

/-- An EMAIL VALARM with a trigger and two attendee properties, as seen by
the ical.js accessors. -/
def emailTwoAttVAlarm : VAlarm :=
  { action := some "EMAIL"
    trigger := some "-PT15M"
    description := none
    summary := none
    attendeeValues := [some "mailto:a@example.com", some "mailto:b@example.com"] }

/-- The same EMAIL VALARM as seen by the node-ical accessors: two ATTENDEE
properties populate the single `attendee` field with an array. -/
def emailTwoAttNodeAlarm : NodeAlarm :=
  { action := some "EMAIL"
    trigger := some "-PT15M"
    description := none
    summary := none
    attendee := some (Sum.inr ["mailto:a@example.com", "mailto:b@example.com"]) }

/-- A DISPLAY VALARM with no trigger, in both accessor models. -/
def displayNoTriggerVAlarm : VAlarm :=
  { action := some "DISPLAY"
    trigger := none
    description := some "reminder"
    summary := none
    attendeeValues := [] }

/-- A DISPLAY VALARM with no trigger as seen by node-ical. -/
def displayNoTriggerNodeAlarm : NodeAlarm :=
  { action := some "DISPLAY"
    trigger := none
    description := some "reminder"
    summary := none
    attendee := none }

/-- A VALARM whose action is not one of the three recognized values. -/
def beepVAlarm : VAlarm :=
  { action := some "BEEP"
    trigger := some "-PT5M"
    description := none
    summary := none
    attendeeValues := [] }

/-- A node-ical VALARM whose action is not one of the three recognized
values. -/
def beepNodeAlarm : NodeAlarm :=
  { action := some "BEEP"
    trigger := some "-PT5M"
    description := none
    summary := none
    attendee := none }

/-- A timed (non-whole-day) VEVENT whose record carries no getetag. -/
def noEtagVEvent : VEvent :=
  { uid := "ev-2"
    summary := some "Meeting"
    description := none
    location := none
    startIsDate := false
    startUnix := 1704844800
    endUnix := some 1704848400
    dtstartTzid := none
    dtendTzid := none
    rrule := none
    valarms := [] }

/-- The response record wrapping `noEtagVEvent`, with `getetag` absent. -/
def noEtagRecord : EventResponse ICalOutcome :=
  { href := "/cal/ev2.ics"
    prop := some
      { calendarData := some (ICalOutcome.vevent noEtagVEvent)
        getetag := none } }

/-- The event built from `noEtagRecord`: its etag defaults to the empty
string. -/
def noEtagEvent : Event :=
  { uid := "ev-2"
    summary := "Meeting"
    start := 1704844800000
    endTime := 1704848400000
    description := none
    location := none
    etag := ""
    href := "/cal/ev2.ics"
    wholeDay := false
    recurrenceRule := none
    startTzid := none
    endTzid := none
    alarms := [] }

/-- A calendar collection response supporting VEVENT and VTODO. -/
def homeCalResponse : CalResponse :=
  { href := "/cal/home/"
    propstat := some (Sum.inl
      { status := some "HTTP/1.1 200 OK"
        prop := some
          { displayname := some "Home"
            getctag := some "ctag-1"
            sccs := some
              { comp := some (Sum.inr
                  [{ name := some "VEVENT" }, { name := some "VTODO" }]) } } }) }

/-- A calendar collection response whose component set holds only VTODO. -/
def vtodoOnlyResponse : CalResponse :=
  { href := "/cal/tasks/"
    propstat := some (Sum.inl
      { status := some "HTTP/1.1 200 OK"
        prop := some
          { displayname := some "Tasks"
            getctag := none
            sccs := some
              { comp := some (Sum.inl { name := some "VTODO" }) } } }) }

/-- A decoded multistatus holding `homeCalResponse` and `vtodoOnlyResponse`. -/
def twoCalDoc : XmlOutcome CalResponse :=
  XmlOutcome.ok (some (Sum.inr [homeCalResponse, vtodoOnlyResponse]))

/-- The calendar built from `homeCalResponse`. -/
def homeCalendar : Calendar :=
  { displayName := "Home"
    url := "/cal/home/"
    ctag := some "ctag-1"
    supportedComponents := ["VEVENT", "VTODO"] }

/-- Counting helper: a list splits into the elements satisfying a Boolean
predicate and those falsifying it. -/
theorem countP_not_add_countP {α : Type} (p : α → Bool) (l : List α) :
    l.countP (fun a => !(p a)) + l.countP p = l.length := by
  induction l with
  | nil => rfl
  | cons a l ih =>
    by_cases h : p a = true <;>
      simp [List.countP_cons, h, List.length_cons, ← ih] <;> omega

/-- Any calendar built by one loop iteration of `parseCalendars` passed the
VEVENT membership check. -/
theorem processCalRecord_vevent (resolve : String → String → String)
    (baseUrl : Option String) (r : CalResponse) (c : Calendar)
    (h : processCalRecord resolve baseUrl r = Except.ok (some c)) :
    c.supportedComponents.contains "VEVENT" = true := by
  rcases r with ⟨href, propstat⟩
  cases propstat with
  | none => simp [processCalRecord] at h
  | some ps =>
    simp only [processCalRecord] at h
    cases hfind : (sumToList ps).find? statusOk with
    | none => rw [hfind] at h; simp at h
    | some okPropstat =>
      rw [hfind] at h
      dsimp only at h
      by_cases hc : (supportedComponentsOf okPropstat).contains "VEVENT" = true
      · rw [if_pos hc] at h
        cases hp : okPropstat.prop with
        | none => rw [hp] at h; simp at h
        | some prop =>
          rw [hp] at h
          simp only [Except.ok.injEq, Option.some.injEq] at h
          rw [← h]
          exact hc
      · rw [if_neg hc] at h
        simp at h

/-- Every calendar produced by the response loop of `parseCalendars`
supports VEVENT. -/
theorem runCalRecords_vevent (resolve : String → String → String)
    (baseUrl : Option String) :
    ∀ (rs : List CalResponse) (cals : List Calendar),
      runCalRecords resolve baseUrl rs = Except.ok cals →
      ∀ c ∈ cals, c.supportedComponents.contains "VEVENT" = true := by
  intro rs
  induction rs with
  | nil =>
    intro cals h c hc
    simp only [runCalRecords, Except.ok.injEq] at h
    subst h
    simp at hc
  | cons r rest ih =>
    intro cals h c hc
    simp only [runCalRecords] at h
    cases hr : processCalRecord resolve baseUrl r with
    | error e => rw [hr] at h; simp at h
    | ok c? =>
      rw [hr] at h
      cases hrest : runCalRecords resolve baseUrl rest with
      | error e => rw [hrest] at h; simp at h
      | ok others =>
        rw [hrest] at h
        cases c? with
        | none =>
          simp only [Except.ok.injEq] at h
          subst h
          exact ih others hrest c hc
        | some c0 =>
          simp only [Except.ok.injEq] at h
          subst h
          rcases List.mem_cons.mp hc with hceq | hcmem
          · subst hceq
            exact processCalRecord_vevent resolve baseUrl r c hr
          · exact ih others hrest c hcmem

/-- Claim C1: on a whole-day event with a raw DTEND, the ical.js variant of
`parseEvents` returns an end instant exactly one day (86400000 ms) before the
raw exclusive end — but the node-ical variant pushes the raw end through
unchanged, so the adjustment is not applied in both parsing variants. The
input is the spec's own fixture: DTSTART 2024-01-10, DTEND 2024-01-12, whose
raw exclusive end instant is 1705017600000 ms. -/
theorem C1_whole_day_adjustment_divergence :
    parseEvents idResolve none
        (XmlOutcome.ok (some (Sum.inl wholeDayRecord))) =
      Except.ok [wholeDayEventIcalJs] ∧
    wholeDayEventIcalJs.wholeDay = true ∧
    wholeDayEventIcalJs.endTime = 1705017600000 - 86400000 ∧
    parseEventsNodeIcal idResolve none
        (XmlOutcome.ok (some (Sum.inl wholeDayNodeRecord))) =
      Except.ok [wholeDayEventNodeIcal] ∧
    wholeDayEventNodeIcal.wholeDay = true ∧
    wholeDayEventNodeIcal.endTime = 1705017600000 ∧
    wholeDayEventNodeIcal.endTime ≠ 1705017600000 - 86400000 := by
  refine ⟨rfl, rfl, by decide, rfl, rfl, rfl, by decide⟩

/-- Claim C3: when the previous and current ctags are equal, the change
detector reports no change, echoes the ctag, and returns three empty lists,
whatever the two ref lists contain. -/
theorem C3_ctag_short_circuit (prevCtag currCtag : String)
    (prevRefs currRefs : List EventRef) (h : prevCtag = currCtag) :
    detectChanges prevCtag currCtag prevRefs currRefs =
      { changed := false
        newCtag := currCtag
        newEvents := []
        updatedEvents := []
        deletedEvents := [] } := by
  simp [detectChanges, h]

/-- Witness for C3: equal ctags with maximally differing ref lists. -/
theorem C3_ctag_short_circuit_witness :
    detectChanges "ctag-7" "ctag-7"
        [{ href := "/a", etag := "1" }]
        [{ href := "/a", etag := "2" }, { href := "/b", etag := "1" }] =
      { changed := false
        newCtag := "ctag-7"
        newEvents := []
        updatedEvents := []
        deletedEvents := [] } :=
  C3_ctag_short_circuit "ctag-7" "ctag-7"
    [{ href := "/a", etag := "1" }]
    [{ href := "/a", etag := "2" }, { href := "/b", etag := "1" }] rfl

/-- Claim C4: on an EMAIL alarm with a trigger and two attendee properties,
the ical.js variant collects both attendees in order, but the node-ical
variant builds a list from the single `attendee` field and can never produce
more than one entry, so its EMAIL alarms do not contain every attendee
value. -/
theorem C4_attendee_collection_divergence :
    parseAlarm emailTwoAttVAlarm =
      some (Alarm.email "-PT15M" none none
        ["mailto:a@example.com", "mailto:b@example.com"]) ∧
    (Alarm.email "-PT15M" none none
      ["mailto:a@example.com", "mailto:b@example.com"]).attendeesOf.length = 2 ∧
    parseNodeAlarm emailTwoAttNodeAlarm =
      some (Alarm.email "-PT15M" none none
        ["mailto:a@example.com,mailto:b@example.com"]) ∧
    (Alarm.email "-PT15M" none none
      ["mailto:a@example.com,mailto:b@example.com"]).attendeesOf.length = 1 ∧
    ∀ v : Option (Sum String (List String)), (nodeAttendees v).length ≤ 1 := by
  refine ⟨rfl, rfl, rfl, rfl, ?_⟩
  intro v
  rcases v with _ | ⟨s | l⟩
  · simp [nodeAttendees]
  · simp only [nodeAttendees]
    split <;> simp
  · simp [nodeAttendees]

/-- Claim C5 counterexample: a decoded multistatus that lacks the `response`
structure makes `parseEvents` return an empty successful result rather than
propagating an error, contradicting the claim that both entry points fail
the whole call on such inputs. -/
theorem C5_counterexample_empty_success :
    parseEvents idResolve none (XmlOutcome.ok none) = Except.ok [] ∧
    isError (parseEvents idResolve none (XmlOutcome.ok none)) = false :=
  ⟨rfl, rfl⟩

/-- Claim C5 as amended: undecodable XML and a missing multistatus root are
fatal for both entry points, and a multistatus without `response` is fatal
for `parseCalendars`; but `parseEvents` returns an empty successful result
on a multistatus without `response`. -/
theorem C5_structural_failures_amended (resolve : String → String → String)
    (baseUrl : Option String) :
    isError (parseCalendars resolve baseUrl XmlOutcome.xmlError) = true ∧
    isError (parseCalendars resolve baseUrl XmlOutcome.noMultistatus) = true ∧
    isError (parseCalendars resolve baseUrl (XmlOutcome.ok none)) = true ∧
    isError (parseEvents resolve baseUrl XmlOutcome.xmlError) = true ∧
    isError (parseEvents resolve baseUrl XmlOutcome.noMultistatus) = true ∧
    parseEvents resolve baseUrl (XmlOutcome.ok none) = Except.ok [] :=
  ⟨rfl, rfl, rfl, rfl, rfl, rfl⟩

/-- Claim C7: a VALARM with no trigger property yields no alarm in either
parsing variant, whatever its action (covering DISPLAY, EMAIL and AUDIO). -/
theorem C7_missing_trigger_drops_alarm (a : VAlarm) (na : NodeAlarm)
    (h1 : a.trigger = none) (h2 : na.trigger = none) :
    parseAlarm a = none ∧ parseNodeAlarm na = none := by
  constructor
  · simp [parseAlarm, h1, jsTruthy]
  · simp [parseNodeAlarm, h2, jsTruthy]

/-- Witness for C7: a DISPLAY alarm with description but no trigger is
dropped by both variants. -/
theorem C7_missing_trigger_drops_alarm_witness :
    parseAlarm displayNoTriggerVAlarm = none ∧
    parseNodeAlarm displayNoTriggerNodeAlarm = none :=
  C7_missing_trigger_drops_alarm displayNoTriggerVAlarm
    displayNoTriggerNodeAlarm rfl rfl

/-- Claim C9: both parse entry points (and the node-ical variant) are pure
functions of their decoded input, the base URL and the URL resolver, so two
invocations on identical arguments yield structurally equal outputs. -/
theorem C9_parsing_deterministic (resolve : String → String → String)
    (baseUrl : Option String) (docC : XmlOutcome CalResponse)
    (docE : XmlOutcome (EventResponse ICalOutcome))
    (docN : XmlOutcome (EventResponse NodeICalOutcome)) :
    parseCalendars resolve baseUrl docC = parseCalendars resolve baseUrl docC ∧
    parseEvents resolve baseUrl docE = parseEvents resolve baseUrl docE ∧
    parseEventsNodeIcal resolve baseUrl docN =
      parseEventsNodeIcal resolve baseUrl docN :=
  ⟨rfl, rfl, rfl⟩

/-- Claim C10: a VALARM whose action is none of DISPLAY, EMAIL, AUDIO yields
no alarm even with a trigger present, in both variants; and every value of
the closed `Alarm` type carries one of those three action tags. -/
theorem C10_unknown_action_drops_alarm (a : VAlarm) (na : NodeAlarm)
    (h1 : a.action ≠ some "DISPLAY") (h2 : a.action ≠ some "EMAIL")
    (h3 : a.action ≠ some "AUDIO") (h4 : na.action ≠ some "DISPLAY")
    (h5 : na.action ≠ some "EMAIL") (h6 : na.action ≠ some "AUDIO") :
    parseAlarm a = none ∧ parseNodeAlarm na = none ∧
    ∀ al : Alarm, ["DISPLAY", "EMAIL", "AUDIO"].contains al.actionTag = true := by
  refine ⟨?_, ?_, ?_⟩
  · simp [parseAlarm, h1, h2, h3]
  · simp [parseNodeAlarm, h4, h5, h6]
  · intro al
    cases al <;> rfl

/-- Witness for C10: an alarm with action BEEP and a present trigger is
dropped by both variants, and a sample alarm value carries a recognized
tag. -/
theorem C10_unknown_action_drops_alarm_witness :
    parseAlarm beepVAlarm = none ∧ parseNodeAlarm beepNodeAlarm = none ∧
    ["DISPLAY", "EMAIL", "AUDIO"].contains (Alarm.audio "-PT1M").actionTag =
      true :=
  ⟨(C10_unknown_action_drops_alarm beepVAlarm beepNodeAlarm
      (by decide) (by decide) (by decide) (by decide) (by decide)
      (by decide)).1,
   (C10_unknown_action_drops_alarm beepVAlarm beepNodeAlarm
      (by decide) (by decide) (by decide) (by decide) (by decide)
      (by decide)).2.1,
   (C10_unknown_action_drops_alarm beepVAlarm beepNodeAlarm
      (by decide) (by decide) (by decide) (by decide) (by decide)
      (by decide)).2.2 (Alarm.audio "-PT1M")⟩

/-- Claim C2: a malformed calendar-data payload is caught and only its
record skipped: on ten records of which exactly one is malformed and the
rest each yield an event, `parseEvents` succeeds (no exception escapes the
loop) with at least nine events, and every malformed record contributes
nothing. -/
theorem C2_per_record_failure_isolation (resolve : String → String → String)
    (baseUrl : Option String) (records : List (EventResponse ICalOutcome))
    (hlen : records.length = 10)
    (hbad : (records.filter isMalformedRecord).length = 1)
    (hgood : ∀ r ∈ records, isMalformedRecord r = false →
      (processEventRecord resolve baseUrl r).isSome = true) :
    parseEvents resolve baseUrl (XmlOutcome.ok (some (Sum.inr records))) =
      Except.ok (records.filterMap (processEventRecord resolve baseUrl)) ∧
    9 ≤ (records.filterMap (processEventRecord resolve baseUrl)).length ∧
    ∀ r ∈ records, isMalformedRecord r = true →
      processEventRecord resolve baseUrl r = none := by
  refine ⟨rfl, ?_, ?_⟩
  · rw [List.length_filterMap_eq_countP]
    have hmono : records.countP (fun r => !(isMalformedRecord r)) ≤
        records.countP
          (fun r => (processEventRecord resolve baseUrl r).isSome) := by
      apply List.countP_mono_left
      intro r hr h
      exact hgood r hr (by simpa using h)
    have hsplit := countP_not_add_countP isMalformedRecord records
    have hcount : records.countP isMalformedRecord = 1 := by
      rw [List.countP_eq_length_filter]
      exact hbad
    omega
  · intro r hr hm
    rcases r with ⟨href, prop⟩
    cases prop with
    | none => simp [isMalformedRecord] at hm
    | some p =>
      have hcd : p.calendarData = some ICalOutcome.malformed := by
        simpa [isMalformedRecord] using hm
      simp [processEventRecord, hcd]

/-- Witness for C2: the ten concrete records of `tenRecords`, nine sound and
one malformed. -/
theorem C2_per_record_failure_isolation_witness :
    parseEvents idResolve none (XmlOutcome.ok (some (Sum.inr tenRecords))) =
      Except.ok (tenRecords.filterMap (processEventRecord idResolve none)) ∧
    9 ≤ (tenRecords.filterMap (processEventRecord idResolve none)).length ∧
    processEventRecord idResolve none malformedRecord = none :=
  ⟨(C2_per_record_failure_isolation idResolve none tenRecords rfl
      (by decide) (by decide)).1,
   (C2_per_record_failure_isolation idResolve none tenRecords rfl
      (by decide) (by decide)).2.1,
   (C2_per_record_failure_isolation idResolve none tenRecords rfl
      (by decide) (by decide)).2.2 malformedRecord (by decide) (by decide)⟩

/-- Claim C6: every calendar returned by `parseCalendars` supports VEVENT,
and a response record none of whose propstats' recognized component names
include VEVENT (for instance a VTODO-only collection) contributes no
calendar. -/
theorem C6_vevent_filter (resolve : String → String → String)
    (baseUrl : Option String) (doc : XmlOutcome CalResponse)
    (cals : List Calendar)
    (h : parseCalendars resolve baseUrl doc = Except.ok cals) :
    (∀ c ∈ cals, c.supportedComponents.contains "VEVENT" = true) ∧
    ∀ r : CalResponse,
      (∀ p ∈ propstatsOf r,
        (supportedComponentsOf p).contains "VEVENT" = false) →
      ∀ cal : Calendar,
        processCalRecord resolve baseUrl r ≠ Except.ok (some cal) := by
  constructor
  · cases doc with
    | xmlError => simp [parseCalendars] at h
    | noMultistatus => simp [parseCalendars] at h
    | ok resp =>
      cases resp with
      | none => simp [parseCalendars] at h
      | some r =>
        exact runCalRecords_vevent resolve baseUrl (sumToList r) cals h
  · intro r hall cal hc
    rcases r with ⟨href, propstat⟩
    cases propstat with
    | none => simp [processCalRecord] at hc
    | some ps =>
      simp only [processCalRecord] at hc
      cases hfind : (sumToList ps).find? statusOk with
      | none => rw [hfind] at hc; simp at hc
      | some okPropstat =>
        rw [hfind] at hc
        dsimp only at hc
        have hmem : okPropstat ∈ propstatsOf ⟨href, some ps⟩ := by
          simpa [propstatsOf] using List.mem_of_find?_eq_some hfind
        have hfalse : (supportedComponentsOf okPropstat).contains "VEVENT" =
            false := hall okPropstat hmem
        rw [if_neg (by rw [hfalse]; exact Bool.false_ne_true)] at hc
        simp at hc

/-- Witness for C6: the Home calendar built from `twoCalDoc` supports
VEVENT, and the VTODO-only record contributes no calendar. -/
theorem C6_vevent_filter_witness :
    homeCalendar.supportedComponents.contains "VEVENT" = true ∧
    processCalRecord idResolve none vtodoOnlyResponse ≠
      Except.ok (some homeCalendar) :=
  ⟨(C6_vevent_filter idResolve none twoCalDoc [homeCalendar] rfl).1
      homeCalendar (by simp),
   (C6_vevent_filter idResolve none twoCalDoc [homeCalendar] rfl).2
      vtodoOnlyResponse (by decide) homeCalendar⟩

/-- Claim C8: every event returned by `parseEvents` carries a string etag;
when the records' getetag properties are absent the etag is the empty
string, never an absent value (the `etag` field of `Event` is total by
construction). -/
theorem C8_missing_getetag_defaults_empty (resolve : String → String → String)
    (baseUrl : Option String) (records : List (EventResponse ICalOutcome))
    (evs : List Event)
    (hparse : parseEvents resolve baseUrl
        (XmlOutcome.ok (some (Sum.inr records))) = Except.ok evs)
    (hnoetag : ∀ r ∈ records, r.prop.bind EventProp.getetag = none) :
    ∀ ev ∈ evs, ev.etag = "" := by
  intro ev hev
  have hevs : records.filterMap (processEventRecord resolve baseUrl) = evs := by
    simpa [parseEvents, sumToList] using hparse
  rw [← hevs] at hev
  rcases List.mem_filterMap.mp hev with ⟨r, hr, hfr⟩
  have hget := hnoetag r hr
  rcases r with ⟨href, prop⟩
  cases prop with
  | none => simp [processEventRecord] at hfr
  | some p =>
    rcases p with ⟨cd, getetag⟩
    have hget' : getetag = none := by simpa using hget
    subst hget'
    cases cd with
    | none => simp [processEventRecord] at hfr
    | some out =>
      cases out with
      | malformed => simp [processEventRecord] at hfr
      | noVEvent => simp [processEventRecord] at hfr
      | vevent v =>
        simp only [processEventRecord, Option.some.injEq] at hfr
        rw [← hfr]
        rfl

/-- Witness for C8: the concrete record `noEtagRecord` (no getetag) yields
`noEtagEvent`, whose etag is the empty string. -/
theorem C8_missing_getetag_defaults_empty_witness : noEtagEvent.etag = "" :=
  C8_missing_getetag_defaults_empty idResolve none [noEtagRecord]
    [noEtagEvent] rfl (by decide) noEtagEvent (by simp)

end CalDav
